import Mathlib

/-!
# dcTerm: a serial-port dumb terminal

A shallow embedding of `dcTerm.cpp` / `Console.cpp` (Krixium/dcTerm).

The main window object `dcTerm` is embedded as a record of its member variables together
with the pieces of widget state the slots touch (enabled flags, window title, label texts).
Every slot becomes a function from window state to window state.  Calls made on the two
collaborators that the program does not implement itself (the `QSerialPort` channel and the
`QMessageBox`) and calls to `Console::DisplayData` are recorded, in program order, in a trace.

Values that come from outside the program are explicit arguments:

* the text of the menu entry that triggered a setter slot (`QObject::sender()->text()`),
* the outcome of `QSerialPort::open`,
* the list returned by `QSerialPortInfo::availablePorts()`,
* the widget state produced by the generated `ui.setupUi`.
-/

/-- Byte arrays exchanged between console, window and serial port. -/
abbrev QByteArray := List (Fin 256)

/-! ## `QString` helpers used by the slots -/

namespace QString

/-- White space skipped by the numeric conversions. -/
def isSpace (c : Char) : Bool :=
  c == ' ' || c == '\t' || c == '\n' || c == '\r' || c == '\x0b' || c == '\x0c'

/-- Value of a run of decimal digits, `none` when a character is not a digit. -/
def digitsValue : List Char → Nat → Option Nat
  | [], acc => some acc
  | c :: cs, acc =>
    if c.isDigit then digitsValue cs (acc * 10 + (c.toNat - 48)) else none

/-- Removes leading and trailing white space. -/
def trimmed (cs : List Char) : List Char :=
  ((cs.dropWhile isSpace).reverse.dropWhile isSpace).reverse

/-- Splits an optional sign off a trimmed numeral. -/
def splitSign : List Char → Bool × List Char
  | '-' :: r => (true, r)
  | '+' :: r => (false, r)
  | r => (false, r)

/-- `QString::toInt()` in base ten: the value of an optionally signed decimal numeral that fits
a 32-bit `int`, surrounding white space ignored; `0` whenever the conversion fails. -/
def toInt (s : String) : Int :=
  match splitSign (trimmed s.data) with
  | (_, []) => 0
  | (neg, ds) =>
    match digitsValue ds 0 with
    | none => 0
    | some n =>
      let v : Int := if neg then -(n : Int) else (n : Int)
      if -2147483648 ≤ v ∧ v ≤ 2147483647 then v else 0

/-- Substitution of the place marker `%1` in a list of characters. -/
def argChars : List Char → List Char → List Char
  | [], _ => []
  | [c], _ => [c]
  | c :: d :: rest, a =>
    if c = '%' ∧ d = '1' then a ++ argChars rest a else c :: argChars (d :: rest) a

/-- `QString::arg(const QString &)` for a text whose only place marker is `%1`. -/
def arg (text a : String) : String := ⟨argChars text.data a.data⟩

/-- `QString::arg(int)`: the decimal rendering of the number is substituted. -/
def argInt (text : String) (n : Int) : String := arg text (toString n)

end QString

/-! ## The serial channel (`QSerialPort`) -/

namespace QSerialPort

/-- Enumeration `QSerialPort::Parity`. -/
inductive Parity
  | NoParity | EvenParity | OddParity | SpaceParity | MarkParity | UnknownParity
  deriving DecidableEq, Repr

/-- Enumeration `QSerialPort::FlowControl`. -/
inductive FlowControl
  | NoFlowControl | HardwareControl | SoftwareControl | UnknownFlowControl
  deriving DecidableEq, Repr

/-- Enumeration `QSerialPort::DataBits`; the program produces its values with a
`static_cast` from `int`, so the carrier is the integer. -/
abbrev DataBits := Int

/-- Enumerator `QSerialPort::Data5`. -/
def Data5 : DataBits := 5
/-- Enumerator `QSerialPort::Data6`. -/
def Data6 : DataBits := 6
/-- Enumerator `QSerialPort::Data7`. -/
def Data7 : DataBits := 7
/-- Enumerator `QSerialPort::Data8`. -/
def Data8 : DataBits := 8

/-- Enumeration `QSerialPort::StopBits`; also produced by a `static_cast` from `int`. -/
abbrev StopBits := Int

/-- Enumerator `QSerialPort::OneStop`. -/
def OneStop : StopBits := 1
/-- Enumerator `QSerialPort::OneAndHalfStop`. -/
def OneAndHalfStop : StopBits := 3
/-- Enumerator `QSerialPort::TwoStop`. -/
def TwoStop : StopBits := 2

end QSerialPort

open QSerialPort in
/-- State of the `QSerialPort` object as far as the program can observe or influence it. -/
structure QSerialPort where
  portName : String
  baudRate : Int
  dataBits : DataBits
  parity : Parity
  stopBits : StopBits
  flowControl : FlowControl
  /-- Result of `isOpen()`. -/
  isOpen : Bool
  /-- Result of `errorString()`. -/
  errorString : String
  /-- Bytes received from the line and not yet read. -/
  readBuffer : QByteArray
  /-- Bytes accepted for transmission so far. -/
  written : QByteArray
  deriving DecidableEq, Repr

/-- Outcome of `QSerialPort::open`: success, or failure with the text that `errorString()`
reports afterwards. -/
inductive OpenResult
  | opened
  | failed (message : String)
  deriving DecidableEq, Repr

namespace QSerialPort

/-- A `new QSerialPort(parent)`: closed, with the library defaults. -/
def create : QSerialPort :=
  { portName := "", baudRate := 9600, dataBits := Data8, parity := Parity.NoParity,
    stopBits := OneStop, flowControl := FlowControl.NoFlowControl, isOpen := false,
    errorString := "", readBuffer := [], written := [] }

def setPortName (p : QSerialPort) (name : String) : QSerialPort := { p with portName := name }

def setBaudRate (p : QSerialPort) (b : Int) : QSerialPort := { p with baudRate := b }

def setDataBits (p : QSerialPort) (d : DataBits) : QSerialPort := { p with dataBits := d }

def setParity (p : QSerialPort) (x : Parity) : QSerialPort := { p with parity := x }

def setStopBits (p : QSerialPort) (b : StopBits) : QSerialPort := { p with stopBits := b }

def setFlowControl (p : QSerialPort) (f : FlowControl) : QSerialPort :=
  { p with flowControl := f }

/-- The call `open(QIODevice::ReadWrite)` with outcome `r`: the new port state and the
returned flag.  A failed attempt leaves the device as it was and records the error text. -/
def openReadWrite (p : QSerialPort) (r : OpenResult) : QSerialPort × Bool :=
  match r with
  | OpenResult.opened => ({ p with isOpen := true }, true)
  | OpenResult.failed m => ({ p with errorString := m }, false)

/-- The call `write(data)`: an open device accepts the bytes, a closed one refuses them
(the refusal is a return value the program never inspects). -/
def write (p : QSerialPort) (data : QByteArray) : QSerialPort :=
  if p.isOpen then { p with written := p.written ++ data } else p

/-- The call `readAll()`: hands out everything buffered. -/
def readAll (p : QSerialPort) : QSerialPort × QByteArray :=
  ({ p with readBuffer := [] }, p.readBuffer)

/-- The call `clear(QSerialPort::Input)`: discards the input buffer. -/
def clearInput (p : QSerialPort) : QSerialPort := { p with readBuffer := [] }

/-- The call `flush()`: pushes buffered output to the line; nothing the program observes. -/
def flush (p : QSerialPort) : QSerialPort := p

/-- The call `close()`. -/
def close (p : QSerialPort) : QSerialPort := { p with isOpen := false }

end QSerialPort

/-- One call on a collaborator, as recorded in the trace of the window. -/
inductive Call
  | setPortName (name : String)
  | setBaudRate (b : Int)
  | setDataBits (d : QSerialPort.DataBits)
  | setParity (p : QSerialPort.Parity)
  | setStopBits (b : QSerialPort.StopBits)
  | setFlowControl (f : QSerialPort.FlowControl)
  | openReadWrite
  | write (data : QByteArray)
  | readAll (data : QByteArray)
  | clearInput
  | flush
  | close
  | DisplayData (data : QByteArray)
  | critical (title text : String)
  deriving DecidableEq, Repr

/-! ## The console widget (`Console.cpp`) and the generated user interface -/

/-- The `Console` text area, reduced to the widget state the window manipulates. -/
structure Console where
  /-- Whether the widget accepts keyboard input (`QWidget::isEnabled`). -/
  enabled : Bool
  deriving DecidableEq, Repr

namespace Console

/-- A `new Console(parent)`: widgets start enabled. -/
def create : Console := { enabled := true }

def setEnabled (c : Console) (b : Bool) : Console := { c with enabled := b }

end Console

/-- A `QKeyEvent` as the console reads it: the code of the key (`key()`) and the text the key
produced (`text()`). -/
structure QKeyEvent where
  key : Int
  text : String
  deriving DecidableEq, Repr

namespace Qt

/-- Enumerator `Qt::Key_Backspace`. -/
def Key_Backspace : Int := 0x01000003
/-- Enumerator `Qt::Key_Left`. -/
def Key_Left : Int := 0x01000012
/-- Enumerator `Qt::Key_Up`. -/
def Key_Up : Int := 0x01000013
/-- Enumerator `Qt::Key_Right`. -/
def Key_Right : Int := 0x01000014
/-- Enumerator `Qt::Key_Down`. -/
def Key_Down : Int := 0x01000015
/-- Enumerator `Qt::Key_A`. -/
def Key_A : Int := 0x41

end Qt

/-- The handler `Console::keyPressEvent`: the arguments of the `emitKeyPressed` signals it
emits, in order.  The conversion `QString::toLocal8Bit` depends on the locale of the machine
and is an argument. -/
def Console.keyPressEvent (toLocal8Bit : String → QByteArray) (e : QKeyEvent) :
    List QByteArray :=
  if e.key = Qt.Key_Left then []
  else if e.key = Qt.Key_Right then []
  else if e.key = Qt.Key_Up then []
  else if e.key = Qt.Key_Down then []
  else if e.key = Qt.Key_Backspace then []
  else [toLocal8Bit e.text]

/-- The widgets of `Ui::dcTermClass` that the slots read or write.  The class is generated
from the form file, so its state after `setupUi` is an input of the constructor. -/
structure Ui_dcTermClass where
  /-- Enabled flag of `actionConnect`. -/
  actionConnect : Bool
  /-- Enabled flag of `actionDisconnect`. -/
  actionDisconnect : Bool
  /-- Enabled flag of `menuSettings`. -/
  menuSettings : Bool
  /-- Enabled flag of `menuPort`. -/
  menuPort : Bool
  /-- Texts of the actions in `menuPort`, in menu order. -/
  menuPortActions : List String
  /-- Message shown by `statusBar`. -/
  statusBarMessage : String
  deriving DecidableEq, Repr

/-- The main window: member variables of class `dcTerm`, its window title, and the trace of
collaborator calls made so far. -/
structure dcTerm where
  ui : Ui_dcTermClass
  console : Console
  windowTitle : String
  mPortLabel : String
  mBitRateLabel : String
  mDataBitsLabel : String
  mParityLabel : String
  mStopBitsLabel : String
  mControlLabel : String
  mPort : QSerialPort
  mPortName : String
  mBitRate : Int
  mDataBits : QSerialPort.DataBits
  mParity : QSerialPort.Parity
  mStopBits : QSerialPort.StopBits
  mControl : QSerialPort.FlowControl
  trace : List Call
  deriving DecidableEq, Repr

namespace dcTerm

open QSerialPort (Parity FlowControl)

def TITLE_UNDETECTABLE : String := "dcTerm - Unable to Detect Any Ports"
def TITLE_CONNECTED : String := "dcTerm - Connected on %1"
def TITLE_CONNECTING : String := "dcTerm - Connecting..."
def TITLE_DISCONNECTED : String := "dcTerm - Disconnected"

def ERROR_CANNOT_OPEN : String := "An error occured while openning port."

def PORT_LABEL_TEXT : String := " Port: %1 "
def BIT_RATE_LABEL_TEXT : String := " Baud Rate: %1 "
def DATA_BIT_LABEL_TEXT : String := " Data Bits: %1 "
def PARITY_LABEL_TEXT : String := " Parity: %1 "
def STOP_BITS_LABEL_TEXT : String := " Stop Bits: %1 "
def FLOW_CONTROL_LABEL_TEXT : String := " Flow Control: %1 "

/-- Appends a collaborator call to the trace. -/
def record (s : dcTerm) (c : Call) : dcTerm := { s with trace := s.trace ++ [c] }

def setWindowTitle (s : dcTerm) (title : String) : dcTerm := { s with windowTitle := title }

/-- Only registers signal-slot connections; no member or widget state changes. -/
def initMenuConnections (s : dcTerm) : dcTerm := s

def initStatusBarLabels (s : dcTerm) : dcTerm :=
  let s := { s with mPortLabel := QString.arg PORT_LABEL_TEXT "N/A" }
  let s := { s with mBitRateLabel := QString.argInt BIT_RATE_LABEL_TEXT s.mBitRate }
  let s := { s with mDataBitsLabel := QString.argInt DATA_BIT_LABEL_TEXT 8 }
  let s := { s with mParityLabel := QString.arg PARITY_LABEL_TEXT "None" }
  let s := { s with mStopBitsLabel := QString.argInt STOP_BITS_LABEL_TEXT 1 }
  let s := { s with mControlLabel := QString.arg FLOW_CONTROL_LABEL_TEXT "Hardware Control" }
  s

/-- The argument `ports` is the list of names from `QSerialPortInfo::availablePorts()`. -/
def populatePortMenu (s : dcTerm) (ports : List String) : dcTerm :=
  if ports.length = 0 then
    let s := { s with ui := { s.ui with menuPort := false } }
    s.setWindowTitle TITLE_UNDETECTABLE
  else
    ports.foldl
      (fun s name => { s with ui := { s.ui with menuPortActions := s.ui.menuPortActions ++ [name] } })
      s

def createConsole (s : dcTerm) : dcTerm :=
  let s := { s with console := Console.create }
  { s with console := s.console.setEnabled false }

/-- The constructor `dcTerm::dcTerm`.  The argument `ui` is the widget state left by
`ui.setupUi(this)`, and `ports` the available ports found by `populatePortMenu`. -/
def construct (ui : Ui_dcTermClass) (ports : List String) : dcTerm :=
  let s : dcTerm :=
    { mPortName := "", mBitRate := 2400, mDataBits := QSerialPort.Data8,
      mParity := Parity.NoParity, mStopBits := QSerialPort.OneStop,
      mControl := FlowControl.HardwareControl,
      ui := ui, mPort := QSerialPort.create, console := Console.create, windowTitle := "",
      mPortLabel := "", mBitRateLabel := "", mDataBitsLabel := "", mParityLabel := "",
      mStopBitsLabel := "", mControlLabel := "", trace := [] }
  let s := s.setWindowTitle TITLE_DISCONNECTED
  let s := s.initMenuConnections
  let s := s.initStatusBarLabels
  let s := s.populatePortMenu ports
  let s := s.createConsole
  s

/-- The slot `startConnection`; `r` is the outcome of the `open` call it makes. -/
def startConnection (s : dcTerm) (r : OpenResult) : dcTerm :=
  let s := { s with mPort := s.mPort.setPortName s.mPortName }.record (Call.setPortName s.mPortName)
  let s := { s with mPort := s.mPort.setBaudRate s.mBitRate }.record (Call.setBaudRate s.mBitRate)
  let s := { s with mPort := s.mPort.setDataBits s.mDataBits }.record (Call.setDataBits s.mDataBits)
  let s := { s with mPort := s.mPort.setParity s.mParity }.record (Call.setParity s.mParity)
  let s := { s with mPort := s.mPort.setStopBits s.mStopBits }.record (Call.setStopBits s.mStopBits)
  let s := { s with mPort := s.mPort.setFlowControl s.mControl }.record (Call.setFlowControl s.mControl)
  let s := s.setWindowTitle TITLE_CONNECTING
  let openned := (s.mPort.openReadWrite r).2
  let s := { s with mPort := (s.mPort.openReadWrite r).1 }.record Call.openReadWrite
  if openned then
    let s := { s with ui := { s.ui with actionConnect := false } }
    let s := { s with ui := { s.ui with actionDisconnect := true } }
    let s := { s with console := s.console.setEnabled true }
    let s := { s with ui := { s.ui with menuSettings := false } }
    let s := { s with ui := { s.ui with menuPort := false } }
    s.setWindowTitle (QString.arg TITLE_CONNECTED s.mPortName)
  else
    let s := s.record (Call.critical "Error" s.mPort.errorString)
    { s with ui := { s.ui with statusBarMessage := ERROR_CANNOT_OPEN } }

/-- The slot `stopConnection`. -/
def stopConnection (s : dcTerm) : dcTerm :=
  if s.mPort.isOpen then
    let s := { s with mPort := s.mPort.flush }.record Call.flush
    let s := { s with mPort := s.mPort.close }.record Call.close
    let s := { s with ui := { s.ui with actionConnect := true } }
    let s := { s with ui := { s.ui with actionDisconnect := false } }
    let s := { s with console := s.console.setEnabled false }
    let s := { s with ui := { s.ui with menuSettings := true } }
    let s := { s with ui := { s.ui with menuPort := true } }
    s.setWindowTitle TITLE_DISCONNECTED
  else
    s

/-- The slot `setBitRate`; `senderText` is the text of the triggering menu entry. -/
def setBitRate (s : dcTerm) (senderText : String) : dcTerm :=
  let bitRate := senderText
  let s := { s with mBitRate := QString.toInt bitRate }
  { s with mBitRateLabel := QString.arg BIT_RATE_LABEL_TEXT bitRate }

/-- The slot `setDataBits`; `senderText` is the text of the triggering menu entry. -/
def setDataBits (s : dcTerm) (senderText : String) : dcTerm :=
  let dataBits := senderText
  let s := { s with mDataBits := QString.toInt dataBits }
  { s with mDataBitsLabel := QString.arg DATA_BIT_LABEL_TEXT dataBits }

/-- The slot `setParity`; `senderText` is the text of the triggering menu entry. -/
def setParity (s : dcTerm) (senderText : String) : dcTerm :=
  let parity := senderText
  let s := { s with mParityLabel := QString.arg PARITY_LABEL_TEXT parity }
  let s := if parity = "Even" then { s with mParity := Parity.EvenParity } else s
  let s := if parity = "Odd" then { s with mParity := Parity.OddParity } else s
  let s := if parity = "None" then { s with mParity := Parity.NoParity } else s
  s

/-- The slot `setStopBits`; `senderText` is the text of the triggering menu entry. -/
def setStopBits (s : dcTerm) (senderText : String) : dcTerm :=
  let stopBits := senderText
  let s := { s with mStopBits := QString.toInt stopBits }
  { s with mStopBitsLabel := QString.arg STOP_BITS_LABEL_TEXT stopBits }

/-- The slot `setFlowControl`; `senderText` is the text of the triggering menu entry. -/
def setFlowControl (s : dcTerm) (senderText : String) : dcTerm :=
  let flowControl := senderText
  let s := { s with mControlLabel := QString.arg FLOW_CONTROL_LABEL_TEXT flowControl }
  let s := if flowControl = "No Flow Control" then
      { s with mControl := FlowControl.NoFlowControl } else s
  let s := if flowControl = "Hardware Control" then
      { s with mControl := FlowControl.HardwareControl } else s
  let s := if flowControl = "Software Control" then
      { s with mControl := FlowControl.SoftwareControl } else s
  s

/-- The slot `selectPort`; `senderText` is the text of the triggering port entry. -/
def selectPort (s : dcTerm) (senderText : String) : dcTerm :=
  let s := { s with mPortName := senderText }
  { s with mPortLabel := QString.arg PORT_LABEL_TEXT s.mPortName }

/-- The slot `writeToPort`. -/
def writeToPort (s : dcTerm) (data : QByteArray) : dcTerm :=
  { s with mPort := s.mPort.write data }.record (Call.write data)

/-- The method `Console::DisplayData`, seen from the window: the console is handed `data`.
How the text area renders the bytes is left to the widget library. -/
def DisplayData (s : dcTerm) (data : QByteArray) : dcTerm := s.record (Call.DisplayData data)

/-- The slot `readFromPort`. -/
def readFromPort (s : dcTerm) : dcTerm :=
  let data := s.mPort.readAll.2
  let s := { s with mPort := s.mPort.readAll.1 }.record (Call.readAll data)
  let s := s.DisplayData data
  { s with mPort := s.mPort.clearInput }.record Call.clearInput

/-- A key press in the console, seen from the window: the constructor connects the signal
`Console::emitKeyPressed` to the slot `writeToPort`, so every emitted byte array is written. -/
def consoleKeyPress (s : dcTerm) (toLocal8Bit : String → QByteArray) (e : QKeyEvent) : dcTerm :=
  (Console.keyPressEvent toLocal8Bit e).foldl writeToPort s

end dcTerm

/-! ## Sessions: sequences of slot invocations -/

/-- One thing that can happen to the window after construction: a slot is invoked.  A
`startConnection` carries the outcome of its open attempt, a setter the text of the entry that
triggered it, and `readyRead` the bytes that arrived on the line before the signal. -/
inductive Event
  | startConnection (r : OpenResult)
  | stopConnection
  | setBitRate (text : String)
  | setDataBits (text : String)
  | setParity (text : String)
  | setStopBits (text : String)
  | setFlowControl (text : String)
  | selectPort (text : String)
  | writeToPort (data : QByteArray)
  | readyRead (chunk : QByteArray)
  deriving DecidableEq, Repr

/-- Whether the event is one of the six setter slots. -/
def Event.isSetter : Event → Bool
  | Event.setBitRate _ => true
  | Event.setDataBits _ => true
  | Event.setParity _ => true
  | Event.setStopBits _ => true
  | Event.setFlowControl _ => true
  | Event.selectPort _ => true
  | _ => false

/-- The six line settings, as the window stores them and as the channel holds them. -/
structure PortConfiguration where
  portName : String
  baudRate : Int
  dataBits : QSerialPort.DataBits
  parity : QSerialPort.Parity
  stopBits : QSerialPort.StopBits
  flowControl : QSerialPort.FlowControl
  deriving DecidableEq, Repr

/-- The settings the channel currently holds. -/
def QSerialPort.configuration (p : QSerialPort) : PortConfiguration :=
  { portName := p.portName, baudRate := p.baudRate, dataBits := p.dataBits,
    parity := p.parity, stopBits := p.stopBits, flowControl := p.flowControl }

namespace dcTerm

/-- The settings stored in the member variables `mPortName` .. `mControl`. -/
def configuration (s : dcTerm) : PortConfiguration :=
  { portName := s.mPortName, baudRate := s.mBitRate, dataBits := s.mDataBits,
    parity := s.mParity, stopBits := s.mStopBits, flowControl := s.mControl }

/-- The window after one event.  The port changes its open flag only through the calls the
slots make on it. -/
def step (s : dcTerm) : Event → dcTerm
  | Event.startConnection r => s.startConnection r
  | Event.stopConnection => s.stopConnection
  | Event.setBitRate t => s.setBitRate t
  | Event.setDataBits t => s.setDataBits t
  | Event.setParity t => s.setParity t
  | Event.setStopBits t => s.setStopBits t
  | Event.setFlowControl t => s.setFlowControl t
  | Event.selectPort t => s.selectPort t
  | Event.writeToPort data => s.writeToPort data
  | Event.readyRead chunk =>
    ({ s with mPort := { s.mPort with readBuffer := s.mPort.readBuffer ++ chunk } }
      : dcTerm).readFromPort

/-- The window after a sequence of events, oldest first. -/
def run (s : dcTerm) (es : List Event) : dcTerm := es.foldl step s

/-- The widget gating that goes with the state of the port: the console is enabled exactly
when the port is open, and while it is open the settings menu, the port menu and the connect
action are disabled and the disconnect action is enabled. -/
def Gated (s : dcTerm) : Prop :=
  (s.console.enabled = true ↔ s.mPort.isOpen = true) ∧
  (s.mPort.isOpen = true →
    s.ui.menuSettings = false ∧ s.ui.menuPort = false ∧
    s.ui.actionConnect = false ∧ s.ui.actionDisconnect = true)

/-- While the port is open, the stored settings are the ones the channel holds. -/
def Synced (s : dcTerm) : Prop :=
  s.mPort.isOpen = true → s.mPort.configuration = s.configuration

/-- The session `es`, started in `s`, runs no setter slot at a moment when the port is
open. -/
def settersGated : dcTerm → List Event → Bool
  | _, [] => true
  | s, e :: es => !(s.mPort.isOpen && e.isSetter) && settersGated (s.step e) es

/-- Whether event `e` can occur in state `s` on a machine whose enumerator reported `ports`.
`populatePortMenu` connects `selectPort` only to the entries it creates, one per reported
port, so the text of a `selectPort` is one of `ports`; and `startConnection` opens the port
under the stored name, which the serial port library never opens when it is empty. -/
def feasibleEvent (ports : List String) (s : dcTerm) : Event → Bool
  | Event.selectPort t => decide (t ∈ ports)
  | Event.startConnection OpenResult.opened => decide (s.mPortName ≠ "")
  | _ => true

/-- Whether the session `es`, started in `s`, consists of events that can occur. -/
def feasible (ports : List String) : dcTerm → List Event → Bool
  | _, [] => true
  | s, e :: es => feasibleEvent ports s e && feasible ports (s.step e) es

end dcTerm

/-! ## Menu tables and sample inputs -/

/-- Modelled from the spec: texts of the eight baud-rate entries wired to `setBitRate`
(`action1200` .. `action115200`; the form file that carries the texts is not among the
sources), each paired with the rate it denotes. -/
def baudRateEntries : List (String × Int) :=
  [("1200", 1200), ("2400", 2400), ("4800", 4800), ("9600", 9600), ("19200", 19200),
   ("38400", 38400), ("57600", 57600), ("115200", 115200)]

/-- Modelled from the spec: texts of the four entries wired to `setDataBits`
(`action5` .. `action8`), each paired with its `QSerialPort::DataBits` enumerator. -/
def dataBitsEntries : List (String × QSerialPort.DataBits) :=
  [("5", QSerialPort.Data5), ("6", QSerialPort.Data6), ("7", QSerialPort.Data7),
   ("8", QSerialPort.Data8)]

/-- Modelled from the spec: texts of the three entries wired to `setParity`
(`actionEven`, `actionOdd`, `actionNone`), each paired with its enumerator. -/
def parityEntries : List (String × QSerialPort.Parity) :=
  [("Even", QSerialPort.Parity.EvenParity), ("Odd", QSerialPort.Parity.OddParity),
   ("None", QSerialPort.Parity.NoParity)]

/-- Modelled from the spec: texts of the two entries wired to `setStopBits`
(`action1`, `action2`), each paired with its `QSerialPort::StopBits` enumerator. -/
def stopBitsEntries : List (String × QSerialPort.StopBits) :=
  [("1", QSerialPort.OneStop), ("2", QSerialPort.TwoStop)]

/-- Modelled from the spec: texts of the three entries wired to `setFlowControl`
(`actionNo_Flow_Control`, `actionHardware_Control`, `actionSoftware_Control`), each paired
with its enumerator. -/
def flowControlEntries : List (String × QSerialPort.FlowControl) :=
  [("No Flow Control", QSerialPort.FlowControl.NoFlowControl),
   ("Hardware Control", QSerialPort.FlowControl.HardwareControl),
   ("Software Control", QSerialPort.FlowControl.SoftwareControl)]

/-- A sample widget state after `setupUi`, used for the concrete scenarios: everything enabled
except the disconnect action, an empty port menu, an empty status bar. -/
def sampleUi : Ui_dcTermClass :=
  { actionConnect := true, actionDisconnect := false, menuSettings := true, menuPort := true,
    menuPortActions := [], statusBarMessage := "" }

/-- The window right after construction on a machine whose only port is `COM3`. -/
def freshWindow : dcTerm := dcTerm.construct sampleUi ["COM3"]

/-- The scenario of the spec: port `COM3`, 9600 baud, 8 data bits, no parity, one stop bit,
no flow control, chosen through the menu slots on a fresh window. -/
def com3Window : dcTerm :=
  ((freshWindow.selectPort "COM3").setBitRate "9600").setFlowControl "No Flow Control"

/-- The window right after construction on a machine without any serial port. -/
def portlessWindow : dcTerm := dcTerm.construct sampleUi []

/-- A sample local 8-bit codec for the concrete scenarios: every character is sent as the low
byte of its code point, which is Latin-1 on the characters Latin-1 has. -/
def sampleLocal8Bit (t : String) : QByteArray := t.data.map fun c => Fin.ofNat c.toNat

namespace dcTerm

open QSerialPort (Parity FlowControl)

/-! ## Auxiliary facts -/

/-- The window after a failed open attempt, field by field. -/
theorem startConnection_failed_eq (s : dcTerm) (m : String) :
    s.startConnection (OpenResult.failed m) =
      { s with
        mPort := { s.mPort with
          portName := s.mPortName, baudRate := s.mBitRate, dataBits := s.mDataBits,
          parity := s.mParity, stopBits := s.mStopBits, flowControl := s.mControl,
          errorString := m },
        windowTitle := TITLE_CONNECTING,
        ui := { s.ui with statusBarMessage := ERROR_CANNOT_OPEN },
        trace := s.trace ++ [Call.setPortName s.mPortName, Call.setBaudRate s.mBitRate,
          Call.setDataBits s.mDataBits, Call.setParity s.mParity,
          Call.setStopBits s.mStopBits, Call.setFlowControl s.mControl, Call.openReadWrite,
          Call.critical "Error" m] } := by
  simp [startConnection, record, setWindowTitle, QSerialPort.openReadWrite,
    QSerialPort.setPortName, QSerialPort.setBaudRate, QSerialPort.setDataBits,
    QSerialPort.setParity, QSerialPort.setStopBits, QSerialPort.setFlowControl]

/-- The trace after a successful open attempt. -/
theorem startConnection_opened_trace (s : dcTerm) :
    (s.startConnection OpenResult.opened).trace =
      s.trace ++ [Call.setPortName s.mPortName, Call.setBaudRate s.mBitRate,
        Call.setDataBits s.mDataBits, Call.setParity s.mParity, Call.setStopBits s.mStopBits,
        Call.setFlowControl s.mControl, Call.openReadWrite] := by
  simp [startConnection, record, setWindowTitle, QSerialPort.openReadWrite]

theorem setBitRate_mBitRate (s : dcTerm) (t : String) :
    (s.setBitRate t).mBitRate = QString.toInt t := rfl

theorem setDataBits_mDataBits (s : dcTerm) (t : String) :
    (s.setDataBits t).mDataBits = QString.toInt t := rfl

theorem setStopBits_mStopBits (s : dcTerm) (t : String) :
    (s.setStopBits t).mStopBits = QString.toInt t := rfl

/-- Adding port entries to the menu changes nothing but the user-interface record. -/
theorem foldl_addAction_eq (ports : List String) (s : dcTerm) :
    ∃ u : Ui_dcTermClass,
      ports.foldl
        (fun s name =>
          { s with ui := { s.ui with menuPortActions := s.ui.menuPortActions ++ [name] } })
        s = { s with ui := u } := by
  induction ports generalizing s with
  | nil => exact ⟨s.ui, rfl⟩
  | cons p ps ih =>
    obtain ⟨u, hu⟩ := ih
      { s with ui := { s.ui with menuPortActions := s.ui.menuPortActions ++ [p] } }
    exact ⟨u, by rw [List.foldl_cons, hu]⟩

/-- The port menu is populated without touching anything but widgets and window title. -/
theorem populatePortMenu_eq (s : dcTerm) (ports : List String) :
    ∃ (u : Ui_dcTermClass) (t : String),
      s.populatePortMenu ports = { s with ui := u, windowTitle := t } := by
  unfold populatePortMenu
  split
  · exact ⟨_, _, rfl⟩
  · obtain ⟨u, hu⟩ := foldl_addAction_eq ports s
    exact ⟨u, s.windowTitle, by rw [hu]⟩

/-! ## Auxiliary facts about sessions -/

/-- Adding the port entries appends the port names, in order, to the entries of the menu and
changes nothing else. -/
theorem foldl_addAction_ui (ports : List String) (s : dcTerm) :
    (ports.foldl
        (fun s name =>
          { s with ui := { s.ui with menuPortActions := s.ui.menuPortActions ++ [name] } })
        s).ui = { s.ui with menuPortActions := s.ui.menuPortActions ++ ports } := by
  induction ports generalizing s with
  | nil => simp
  | cons p ps ih => rw [List.foldl_cons, ih]; simp

/-- The user-interface record after construction is the one `populatePortMenu` leaves. -/
theorem construct_ui (ui : Ui_dcTermClass) (ports : List String) :
    (construct ui ports).ui =
      if ports.length = 0 then { ui with menuPort := false }
      else { ui with menuPortActions := ui.menuPortActions ++ ports } := by
  unfold construct createConsole populatePortMenu
  simp only []
  split
  · rfl
  · exact foldl_addAction_ui ports _

/-- Construction leaves the port closed and the console disabled. -/
theorem construct_closed (ui : Ui_dcTermClass) (ports : List String) :
    (construct ui ports).mPort.isOpen = false ∧ (construct ui ports).console.enabled = false := by
  unfold construct
  simp only []
  generalize hs0 : (initStatusBarLabels _) = s0
  obtain ⟨u, t, h⟩ := populatePortMenu_eq s0 ports
  rw [h]
  subst hs0
  exact ⟨rfl, rfl⟩

/-- Construction leaves the stored port name empty. -/
theorem construct_mPortName (ui : Ui_dcTermClass) (ports : List String) :
    (construct ui ports).mPortName = "" := by
  unfold construct
  simp only []
  generalize hs0 : (initStatusBarLabels _) = s0
  obtain ⟨u, t, h⟩ := populatePortMenu_eq s0 ports
  rw [h]
  subst hs0
  rfl

theorem run_nil (s : dcTerm) : s.run [] = s := rfl

theorem run_cons (s : dcTerm) (e : Event) (es : List Event) :
    s.run (e :: es) = (s.step e).run es := rfl

/-- No slot adds or removes an entry of the port menu. -/
theorem step_menuPortActions (s : dcTerm) (e : Event) :
    (s.step e).ui.menuPortActions = s.ui.menuPortActions := by
  cases e with
  | startConnection r =>
    cases r <;> simp [step, startConnection, record, setWindowTitle, QSerialPort.openReadWrite]
  | stopConnection =>
    cases h : s.mPort.isOpen <;> simp [step, stopConnection, h, record, setWindowTitle]
  | setParity t => simp only [step, setParity]; split_ifs <;> rfl
  | setFlowControl t => simp only [step, setFlowControl]; split_ifs <;> rfl
  | _ => rfl

theorem run_menuPortActions (s : dcTerm) (es : List Event) :
    (s.run es).ui.menuPortActions = s.ui.menuPortActions := by
  induction es generalizing s with
  | nil => rfl
  | cons e es ih => rw [run_cons, ih, step_menuPortActions]

/-- While the port is closed, every event except a successful `startConnection` leaves the
port closed and the enabled flag of the port menu as it was. -/
theorem step_closed_menuPort (s : dcTerm) (e : Event) (hc : s.mPort.isOpen = false)
    (he : e ≠ Event.startConnection OpenResult.opened) :
    (s.step e).mPort.isOpen = false ∧ (s.step e).ui.menuPort = s.ui.menuPort := by
  cases e with
  | startConnection r =>
    cases r with
    | opened => exact absurd rfl he
    | failed m => rw [step, startConnection_failed_eq]; exact ⟨hc, rfl⟩
  | stopConnection => simp [step, stopConnection, hc]
  | setParity t => simp only [step, setParity]; split_ifs <;> exact ⟨hc, rfl⟩
  | setFlowControl t => simp only [step, setFlowControl]; split_ifs <;> exact ⟨hc, rfl⟩
  | writeToPort data => simp [step, writeToPort, record, QSerialPort.write, hc]
  | readyRead chunk =>
    simp [step, readFromPort, DisplayData, record, QSerialPort.readAll,
      QSerialPort.clearInput, hc]
  | setBitRate t => exact ⟨hc, rfl⟩
  | setDataBits t => exact ⟨hc, rfl⟩
  | setStopBits t => exact ⟨hc, rfl⟩
  | selectPort t => exact ⟨hc, rfl⟩

theorem run_closed_menuPort (s : dcTerm) (es : List Event) (hc : s.mPort.isOpen = false)
    (he : ∀ e ∈ es, e ≠ Event.startConnection OpenResult.opened) :
    (s.run es).mPort.isOpen = false ∧ (s.run es).ui.menuPort = s.ui.menuPort := by
  induction es generalizing s with
  | nil => exact ⟨hc, rfl⟩
  | cons e es ih =>
    have h1 := step_closed_menuPort s e hc (he e (List.mem_cons_self e es))
    have h2 := ih (s.step e) h1.1 (fun x hx => he x (List.mem_cons_of_mem e hx))
    rw [run_cons]
    exact ⟨h2.1, h2.2.trans h1.2⟩

/-- The gating holds right after construction. -/
theorem Gated_construct (ui : Ui_dcTermClass) (ports : List String) :
    (construct ui ports).Gated := by
  obtain ⟨h1, h2⟩ := construct_closed ui ports
  unfold Gated
  rw [h1, h2]
  simp

/-- Every slot preserves the gating. -/
theorem Gated_step (s : dcTerm) (e : Event) (h : s.Gated) : (s.step e).Gated := by
  unfold Gated at h ⊢
  cases e with
  | startConnection r =>
    cases r with
    | opened =>
      simp [step, startConnection, record, setWindowTitle, QSerialPort.openReadWrite,
        Console.setEnabled]
    | failed m => rw [step, startConnection_failed_eq]; exact h
  | stopConnection =>
    cases hc : s.mPort.isOpen
    · simpa [step, stopConnection, hc] using h
    · simp [step, stopConnection, hc, record, setWindowTitle, QSerialPort.close,
        QSerialPort.flush, Console.setEnabled]
  | setParity t => simp only [step, setParity]; split_ifs <;> exact h
  | setFlowControl t => simp only [step, setFlowControl]; split_ifs <;> exact h
  | writeToPort data =>
    cases hc : s.mPort.isOpen <;>
      simpa [step, writeToPort, record, QSerialPort.write, hc] using h
  | readyRead chunk =>
    simpa [step, readFromPort, DisplayData, record, QSerialPort.readAll,
      QSerialPort.clearInput] using h
  | setBitRate t => exact h
  | setDataBits t => exact h
  | setStopBits t => exact h
  | selectPort t => exact h

theorem Gated_run (s : dcTerm) (es : List Event) (h : s.Gated) : (s.run es).Gated := by
  induction es generalizing s with
  | nil => exact h
  | cons e es ih => rw [run_cons]; exact ih (s.step e) (Gated_step s e h)

/-- Only the setter slots change the stored settings. -/
theorem step_configuration (s : dcTerm) (e : Event) (h : e.isSetter = false) :
    (s.step e).configuration = s.configuration := by
  cases e with
  | startConnection r =>
    cases r with
    | opened =>
      simp [step, startConnection, record, setWindowTitle, QSerialPort.openReadWrite,
        configuration]
    | failed m => rw [step, startConnection_failed_eq]; rfl
  | stopConnection =>
    cases hc : s.mPort.isOpen <;>
      simp [step, stopConnection, hc, record, setWindowTitle, configuration]
  | writeToPort data => rfl
  | readyRead chunk => rfl
  | setBitRate t => simp [Event.isSetter] at h
  | setDataBits t => simp [Event.isSetter] at h
  | setParity t => simp [Event.isSetter] at h
  | setStopBits t => simp [Event.isSetter] at h
  | setFlowControl t => simp [Event.isSetter] at h
  | selectPort t => simp [Event.isSetter] at h

/-- No setter slot touches the channel. -/
theorem step_setter_mPort (s : dcTerm) (e : Event) (h : e.isSetter = true) :
    (s.step e).mPort = s.mPort := by
  cases e with
  | setParity t => simp only [step, setParity]; split_ifs <;> rfl
  | setFlowControl t => simp only [step, setFlowControl]; split_ifs <;> rfl
  | setBitRate t => rfl
  | setDataBits t => rfl
  | setStopBits t => rfl
  | selectPort t => rfl
  | startConnection r => simp [Event.isSetter] at h
  | stopConnection => simp [Event.isSetter] at h
  | writeToPort data => simp [Event.isSetter] at h
  | readyRead chunk => simp [Event.isSetter] at h

/-- After `startConnection`, whatever the outcome, the channel holds the stored settings. -/
theorem startConnection_configuration (s : dcTerm) (r : OpenResult) :
    (s.startConnection r).mPort.configuration = (s.startConnection r).configuration := by
  cases r with
  | opened =>
    simp [startConnection, record, setWindowTitle, QSerialPort.openReadWrite, configuration,
      QSerialPort.configuration, QSerialPort.setPortName, QSerialPort.setBaudRate,
      QSerialPort.setDataBits, QSerialPort.setParity, QSerialPort.setStopBits,
      QSerialPort.setFlowControl]
  | failed m => rw [startConnection_failed_eq]; rfl

/-- An event that is not a setter running on an open port keeps the stored settings equal to
the settings of the open channel. -/
theorem Synced_step (s : dcTerm) (e : Event) (hs : s.Synced)
    (hg : (s.mPort.isOpen && e.isSetter) = false) : (s.step e).Synced := by
  cases hset : e.isSetter
  · cases e with
    | startConnection r => exact fun _ => startConnection_configuration s r
    | stopConnection =>
      cases hc : s.mPort.isOpen
      · simpa [step, stopConnection, hc] using hs
      · intro ho
        simp [step, stopConnection, hc, record, setWindowTitle, QSerialPort.close,
          QSerialPort.flush] at ho
    | writeToPort data =>
      cases hc : s.mPort.isOpen
      · intro ho
        simp [step, writeToPort, record, QSerialPort.write, hc] at ho
      · have h := hs hc
        simpa [Synced, step, writeToPort, record, QSerialPort.write, hc, configuration,
          QSerialPort.configuration] using h
    | readyRead chunk =>
      intro ho
      have h := hs (by simpa [step, readFromPort, DisplayData, record, QSerialPort.readAll,
        QSerialPort.clearInput] using ho)
      simpa [step, readFromPort, DisplayData, record, QSerialPort.readAll,
        QSerialPort.clearInput, configuration, QSerialPort.configuration] using h
    | setBitRate t => simp [Event.isSetter] at hset
    | setDataBits t => simp [Event.isSetter] at hset
    | setParity t => simp [Event.isSetter] at hset
    | setStopBits t => simp [Event.isSetter] at hset
    | setFlowControl t => simp [Event.isSetter] at hset
    | selectPort t => simp [Event.isSetter] at hset
  · intro ho
    rw [step_setter_mPort s e hset] at ho
    rw [ho, hset] at hg
    exact absurd hg (by decide)

theorem Synced_run (s : dcTerm) (es : List Event) (hs : s.Synced)
    (hg : s.settersGated es = true) : (s.run es).Synced := by
  induction es generalizing s with
  | nil => exact hs
  | cons e es ih =>
    simp only [settersGated, Bool.and_eq_true, Bool.not_eq_true'] at hg
    rw [run_cons]
    exact ih (s.step e) (Synced_step s e hs hg.1) hg.2

/-- On a window without a selected port and with the port closed, an event that can occur on
a machine without ports keeps the port name empty, the port closed and the enabled flag of
the port menu as it was. -/
theorem step_portless (s : dcTerm) (e : Event) (hn : s.mPortName = "")
    (hc : s.mPort.isOpen = false) (hf : feasibleEvent [] s e = true) :
    (s.step e).mPortName = "" ∧ (s.step e).mPort.isOpen = false ∧
      (s.step e).ui.menuPort = s.ui.menuPort := by
  have hne : e ≠ Event.startConnection OpenResult.opened := by
    intro he
    subst he
    simp [feasibleEvent, hn] at hf
  refine ⟨?_, step_closed_menuPort s e hc hne⟩
  cases e with
  | startConnection r =>
    cases r with
    | opened => exact absurd rfl hne
    | failed m => rw [step, startConnection_failed_eq]; exact hn
  | stopConnection => simp [step, stopConnection, hc, hn]
  | setParity t => simp only [step, setParity]; split_ifs <;> exact hn
  | setFlowControl t => simp only [step, setFlowControl]; split_ifs <;> exact hn
  | selectPort t => simp [feasibleEvent] at hf
  | setBitRate t => exact hn
  | setDataBits t => exact hn
  | setStopBits t => exact hn
  | writeToPort data => exact hn
  | readyRead chunk => exact hn

theorem run_portless (s : dcTerm) (es : List Event) (hn : s.mPortName = "")
    (hc : s.mPort.isOpen = false) (hf : feasible [] s es = true) :
    (s.run es).ui.menuPort = s.ui.menuPort := by
  induction es generalizing s with
  | nil => rfl
  | cons e es ih =>
    simp only [feasible, Bool.and_eq_true] at hf
    obtain ⟨h1, h2, h3⟩ := step_portless s e hn hc hf.1
    rw [run_cons, ih (s.step e) h1 h2 hf.2, h3]

/-! ## Setters store what the menu entry denotes (C1) -/

/-- C1: in every window state, triggering a setter slot from one of its wired menu entries
(or `selectPort` from an entry with any port name) and then reading the corresponding member
variable yields exactly the value that entry denotes. -/
theorem setter_then_read (s : dcTerm) :
    (∀ e ∈ baudRateEntries, (s.setBitRate e.1).mBitRate = e.2) ∧
    (∀ e ∈ dataBitsEntries, (s.setDataBits e.1).mDataBits = e.2) ∧
    (∀ e ∈ parityEntries, (s.setParity e.1).mParity = e.2) ∧
    (∀ e ∈ stopBitsEntries, (s.setStopBits e.1).mStopBits = e.2) ∧
    (∀ e ∈ flowControlEntries, (s.setFlowControl e.1).mControl = e.2) ∧
    (∀ name : String, (s.selectPort name).mPortName = name) := by
  refine ⟨?_, ?_, ?_, ?_, ?_, ?_⟩
  · intro e he
    simp only [baudRateEntries, List.mem_cons, List.mem_singleton, List.not_mem_nil,
      or_false] at he
    rcases he with rfl | rfl | rfl | rfl | rfl | rfl | rfl | rfl <;>
      (rw [setBitRate_mBitRate]; decide)
  · intro e he
    simp only [dataBitsEntries, List.mem_cons, List.mem_singleton, List.not_mem_nil,
      or_false] at he
    rcases he with rfl | rfl | rfl | rfl <;> (rw [setDataBits_mDataBits]; decide)
  · intro e he
    simp only [parityEntries, List.mem_cons, List.mem_singleton, List.not_mem_nil,
      or_false] at he
    rcases he with rfl | rfl | rfl <;> rfl
  · intro e he
    simp only [stopBitsEntries, List.mem_cons, List.mem_singleton, List.not_mem_nil,
      or_false] at he
    rcases he with rfl | rfl <;> (rw [setStopBits_mStopBits]; decide)
  · intro e he
    simp only [flowControlEntries, List.mem_cons, List.mem_singleton, List.not_mem_nil,
      or_false] at he
    rcases he with rfl | rfl | rfl <;> rfl
  · intro name
    rfl

/-- C1, instance: on the fresh window the entries `9600`, `7`, `Odd`, `2`,
`Software Control` and the port `COM3` are stored as 9600, `Data7`, `OddParity`, `TwoStop`,
`SoftwareControl` and `COM3`. -/
theorem setter_then_read_witness :
    (freshWindow.setBitRate "9600").mBitRate = 9600 ∧
    (freshWindow.setDataBits "7").mDataBits = QSerialPort.Data7 ∧
    (freshWindow.setParity "Odd").mParity = Parity.OddParity ∧
    (freshWindow.setStopBits "2").mStopBits = QSerialPort.TwoStop ∧
    (freshWindow.setFlowControl "Software Control").mControl = FlowControl.SoftwareControl ∧
    (freshWindow.selectPort "COM3").mPortName = "COM3" :=
  ⟨(setter_then_read freshWindow).1 ("9600", 9600) (by decide),
   (setter_then_read freshWindow).2.1 ("7", QSerialPort.Data7) (by decide),
   (setter_then_read freshWindow).2.2.1 ("Odd", Parity.OddParity) (by decide),
   (setter_then_read freshWindow).2.2.2.1 ("2", QSerialPort.TwoStop) (by decide),
   (setter_then_read freshWindow).2.2.2.2.1
     ("Software Control", FlowControl.SoftwareControl) (by decide),
   (setter_then_read freshWindow).2.2.2.2.2 "COM3"⟩

/-! ## Defaults after construction (C2) -/

/-- C2: whatever the generated form and the list of available ports, the constructed window
stores an empty port name, 2400 baud, `Data8`, `NoParity`, `OneStop` and `HardwareControl`,
and its status-bar labels read 2400, 8, None, 1 and Hardware Control, with `N/A` for the
unset port. -/
theorem construct_defaults (ui : Ui_dcTermClass) (ports : List String) :
    (construct ui ports).mPortName = "" ∧
    (construct ui ports).mBitRate = 2400 ∧
    (construct ui ports).mDataBits = QSerialPort.Data8 ∧
    (construct ui ports).mParity = Parity.NoParity ∧
    (construct ui ports).mStopBits = QSerialPort.OneStop ∧
    (construct ui ports).mControl = FlowControl.HardwareControl ∧
    (construct ui ports).mPortLabel = " Port: N/A " ∧
    (construct ui ports).mBitRateLabel = " Baud Rate: 2400 " ∧
    (construct ui ports).mDataBitsLabel = " Data Bits: 8 " ∧
    (construct ui ports).mParityLabel = " Parity: None " ∧
    (construct ui ports).mStopBitsLabel = " Stop Bits: 1 " ∧
    (construct ui ports).mControlLabel = " Flow Control: Hardware Control " := by
  unfold construct
  simp only []
  generalize hs0 : (initStatusBarLabels _) = s0
  obtain ⟨u, t, h⟩ := populatePortMenu_eq s0 ports
  rw [h]
  subst hs0
  exact ⟨rfl, rfl, rfl, rfl, rfl, rfl, rfl, rfl, rfl, rfl, rfl, rfl⟩

/-! ## Connecting and sending (C3) -/

/-- C3: for every window state, when the `open` call succeeds `startConnection` makes exactly
seven calls on the channel, the six setters carrying the six stored settings followed by the
open attempt; the channel then holds those settings and is open, and the title announces the
connection.  A following `writeToPort data` makes exactly one further call, `write data`, and
the channel accepts exactly the bytes of `data` after whatever it had accepted before. -/
theorem startConnection_opened_then_write (s : dcTerm) (data : QByteArray) :
    (s.startConnection OpenResult.opened).trace =
      s.trace ++ [Call.setPortName s.mPortName, Call.setBaudRate s.mBitRate,
        Call.setDataBits s.mDataBits, Call.setParity s.mParity, Call.setStopBits s.mStopBits,
        Call.setFlowControl s.mControl, Call.openReadWrite] ∧
    (s.startConnection OpenResult.opened).mPort.portName = s.mPortName ∧
    (s.startConnection OpenResult.opened).mPort.baudRate = s.mBitRate ∧
    (s.startConnection OpenResult.opened).mPort.dataBits = s.mDataBits ∧
    (s.startConnection OpenResult.opened).mPort.parity = s.mParity ∧
    (s.startConnection OpenResult.opened).mPort.stopBits = s.mStopBits ∧
    (s.startConnection OpenResult.opened).mPort.flowControl = s.mControl ∧
    (s.startConnection OpenResult.opened).mPort.isOpen = true ∧
    (s.startConnection OpenResult.opened).windowTitle = QString.arg TITLE_CONNECTED s.mPortName ∧
    ((s.startConnection OpenResult.opened).writeToPort data).trace =
      (s.startConnection OpenResult.opened).trace ++ [Call.write data] ∧
    ((s.startConnection OpenResult.opened).writeToPort data).mPort.written =
      s.mPort.written ++ data ∧
    ((s.startConnection OpenResult.opened).writeToPort data).mPort.isOpen = true := by
  refine ⟨?_, rfl, rfl, rfl, rfl, rfl, rfl, rfl, rfl, rfl, ?_, ?_⟩
  · simp [startConnection, record, setWindowTitle, QSerialPort.openReadWrite]
  · simp [startConnection, writeToPort, record, setWindowTitle, QSerialPort.openReadWrite,
      QSerialPort.write, QSerialPort.setPortName, QSerialPort.setBaudRate,
      QSerialPort.setDataBits, QSerialPort.setParity, QSerialPort.setStopBits,
      QSerialPort.setFlowControl]
  · simp [startConnection, writeToPort, record, setWindowTitle, QSerialPort.openReadWrite,
      QSerialPort.write]

/-- C3, the scenario of the spec: port `COM3` at 9600 baud, 8 data bits, no parity, one stop
bit and no flow control; after a successful open, sending the letter A makes the channel
receive the single byte `0x41`, and the trace shows the six settings, the open and the one
write. -/
theorem startConnection_opened_then_write_witness :
    ((com3Window.startConnection OpenResult.opened).writeToPort [0x41]).mPort.written = [0x41] ∧
    ((com3Window.startConnection OpenResult.opened).writeToPort [0x41]).mPort.isOpen = true ∧
    ((com3Window.startConnection OpenResult.opened).writeToPort [0x41]).trace =
      [Call.setPortName "COM3", Call.setBaudRate 9600, Call.setDataBits QSerialPort.Data8,
       Call.setParity Parity.NoParity, Call.setStopBits QSerialPort.OneStop,
       Call.setFlowControl FlowControl.NoFlowControl, Call.openReadWrite, Call.write [0x41]] :=
  have h := startConnection_opened_then_write com3Window [0x41]
  ⟨h.2.2.2.2.2.2.2.2.2.2.1.trans (by decide), h.2.2.2.2.2.2.2.2.2.2.2,
   (h.2.2.2.2.2.2.2.2.2.1.trans (congrArg (· ++ [Call.write [0x41]]) h.1)).trans (by decide)⟩

/-! ## Disconnecting (C4) -/

/-- C4: `stopConnection` on a window whose port is not open returns the window unchanged
(no call on the channel, no widget or title change); on an open port it calls `flush` and
then `close` on the channel and nothing else, leaves the port closed, the console disabled
and the title at the disconnected title; applying it twice gives the same window state as
applying it once. -/
theorem stopConnection_idempotent (s : dcTerm) :
    (s.mPort.isOpen = false → s.stopConnection = s) ∧
    (s.mPort.isOpen = true →
      s.stopConnection.trace = s.trace ++ [Call.flush, Call.close] ∧
      s.stopConnection.mPort.isOpen = false ∧
      s.stopConnection.console.enabled = false ∧
      s.stopConnection.windowTitle = TITLE_DISCONNECTED) ∧
    s.stopConnection.stopConnection = s.stopConnection := by
  refine ⟨?_, ?_, ?_⟩
  · intro h
    simp [stopConnection, h]
  · intro h
    simp [stopConnection, h, record, setWindowTitle, QSerialPort.close, QSerialPort.flush,
      Console.setEnabled]
  · cases h : s.mPort.isOpen <;>
      simp [stopConnection, h, record, setWindowTitle, QSerialPort.close, QSerialPort.flush]

/-- C4, instances: the fresh window (port closed) is returned unchanged, and the connected
`COM3` window is flushed, closed and left disconnected. -/
theorem stopConnection_idempotent_witness :
    freshWindow.stopConnection = freshWindow ∧
    ((com3Window.startConnection OpenResult.opened).stopConnection.trace =
        (com3Window.startConnection OpenResult.opened).trace ++ [Call.flush, Call.close] ∧
      (com3Window.startConnection OpenResult.opened).stopConnection.mPort.isOpen = false ∧
      (com3Window.startConnection OpenResult.opened).stopConnection.console.enabled = false ∧
      (com3Window.startConnection OpenResult.opened).stopConnection.windowTitle
        = TITLE_DISCONNECTED) :=
  ⟨(stopConnection_idempotent freshWindow).1 (by decide),
   (stopConnection_idempotent (com3Window.startConnection OpenResult.opened)).2.1 (by decide)⟩

/-! ## Connecting without a port name (C5) -/

/-- C5, counterexample: on the fresh window the port name is empty, yet `startConnection`
calls `open` on the channel (the attempt is the seventh call of the trace). -/
theorem startConnection_unnamed_port_opens :
    freshWindow.mPortName = "" ∧
    Call.openReadWrite ∈
      (freshWindow.startConnection (OpenResult.failed "No such file or directory")).trace ∧
    Call.openReadWrite ∈ (freshWindow.startConnection OpenResult.opened).trace := by
  decide

/-- C5, amended: with an empty stored port name `startConnection` checks nothing itself; it
hands the channel the empty name and the other five settings and makes one open attempt.
When that attempt fails with text `m`, one error box with text `m` follows, the status bar
shows the cannot-open message and the open flag of the port is what it was. -/
theorem startConnection_empty_name (s : dcTerm) (m : String) (h : s.mPortName = "") :
    (s.startConnection OpenResult.opened).trace =
      s.trace ++ [Call.setPortName "", Call.setBaudRate s.mBitRate,
        Call.setDataBits s.mDataBits, Call.setParity s.mParity, Call.setStopBits s.mStopBits,
        Call.setFlowControl s.mControl, Call.openReadWrite] ∧
    (s.startConnection (OpenResult.failed m)).trace =
      s.trace ++ [Call.setPortName "", Call.setBaudRate s.mBitRate,
        Call.setDataBits s.mDataBits, Call.setParity s.mParity, Call.setStopBits s.mStopBits,
        Call.setFlowControl s.mControl, Call.openReadWrite, Call.critical "Error" m] ∧
    (s.startConnection (OpenResult.failed m)).mPort.isOpen = s.mPort.isOpen ∧
    (s.startConnection (OpenResult.failed m)).ui.statusBarMessage = ERROR_CANNOT_OPEN := by
  refine ⟨?_, ?_, ?_, ?_⟩
  · rw [startConnection_opened_trace, h]
  · rw [startConnection_failed_eq, h]
  · rw [startConnection_failed_eq]
  · rw [startConnection_failed_eq]

/-- C5, amended, instance: the fresh window, whose port name is empty, with an open attempt
that fails. -/
theorem startConnection_empty_name_witness :
    (freshWindow.startConnection (OpenResult.failed "No such file or directory")).trace =
      [Call.setPortName "", Call.setBaudRate 2400, Call.setDataBits QSerialPort.Data8,
        Call.setParity Parity.NoParity, Call.setStopBits QSerialPort.OneStop,
        Call.setFlowControl FlowControl.HardwareControl, Call.openReadWrite,
        Call.critical "Error" "No such file or directory"] ∧
    (freshWindow.startConnection (OpenResult.failed "No such file or directory")).mPort.isOpen
      = false :=
  have h := startConnection_empty_name freshWindow "No such file or directory" (by decide)
  ⟨h.2.1.trans (by decide), h.2.2.1.trans (by decide)⟩

/-! ## A failed open attempt (C6) -/

/-- C6, at the failing input: the `COM3` window is disconnected and titled so; after an open
attempt that fails with `access denied` the user is shown exactly that text, the port is
still closed, stored settings, console and menu enablement are as before, but the title
reads `dcTerm - Connecting...` and not `dcTerm - Disconnected`. -/
theorem startConnection_failed_leaves_connecting_title :
    com3Window.mPort.isOpen = false ∧
    com3Window.windowTitle = "dcTerm - Disconnected" ∧
    (com3Window.startConnection (OpenResult.failed "access denied")).trace.getLast?
      = some (Call.critical "Error" "access denied") ∧
    (com3Window.startConnection (OpenResult.failed "access denied")).mPort.isOpen = false ∧
    (com3Window.startConnection (OpenResult.failed "access denied")).console
      = com3Window.console ∧
    (com3Window.startConnection (OpenResult.failed "access denied")).ui
      = { com3Window.ui with statusBarMessage := ERROR_CANNOT_OPEN } ∧
    (com3Window.startConnection (OpenResult.failed "access denied")).mBitRate = 9600 ∧
    (com3Window.startConnection (OpenResult.failed "access denied")).windowTitle
      = "dcTerm - Connecting..." ∧
    (com3Window.startConnection (OpenResult.failed "access denied")).windowTitle
      ≠ TITLE_DISCONNECTED := by
  decide

/-! ## Writing while disconnected (C7) -/

/-- C7, counterexample: on the fresh window the port is not open, yet `writeToPort` calls
`write` on the channel with the byte `0x41`, and that call is its only effect: nothing
reports an error. -/
theorem writeToPort_disconnected_calls_write :
    freshWindow.mPort.isOpen = false ∧
    Call.write [0x41] ∈ (freshWindow.writeToPort [0x41]).trace ∧
    freshWindow.writeToPort [0x41] = { freshWindow with trace := [Call.write [0x41]] } := by
  decide

/-- C7, amended: for every byte sequence, `writeToPort` on a window whose port is not open
reports no error; its one effect is the call `write data` on the channel, which the closed
device refuses, so no byte is accepted for transmission and the window is otherwise
unchanged. -/
theorem writeToPort_closed (s : dcTerm) (data : QByteArray) (h : s.mPort.isOpen = false) :
    s.writeToPort data = { s with trace := s.trace ++ [Call.write data] } ∧
    (s.writeToPort data).mPort.written = s.mPort.written := by
  simp [writeToPort, record, QSerialPort.write, h]

/-- C7, amended, instance: two bytes written on the fresh, disconnected window. -/
theorem writeToPort_closed_witness :
    freshWindow.writeToPort [0x68, 0x69]
      = { freshWindow with trace := freshWindow.trace ++ [Call.write [0x68, 0x69]] } ∧
    (freshWindow.writeToPort [0x68, 0x69]).mPort.written = freshWindow.mPort.written :=
  writeToPort_closed freshWindow [0x68, 0x69] (by decide)

/-! ## Reading (C8) -/

/-- C8: for every window state and every chunk of bytes buffered on the channel (the empty
chunk included), `readFromPort` makes exactly three calls, in this order: one `readAll` that
returns the whole chunk, one `DisplayData` on the console with that same chunk, and one
`clear` of the input; besides the emptied input buffer nothing else changes. -/
theorem readFromPort_forwards (s : dcTerm) (chunk : QByteArray) :
    ({ s with mPort := { s.mPort with readBuffer := chunk } } : dcTerm).readFromPort =
      { s with
        mPort := { s.mPort with readBuffer := [] },
        trace := s.trace ++ [Call.readAll chunk, Call.DisplayData chunk, Call.clearInput] } := by
  simp [readFromPort, DisplayData, record, QSerialPort.readAll, QSerialPort.clearInput]

/-! ## Setters while the port is open (C9) -/

/-- C9, counterexample: on the connected `COM3` window, opened at 9600 baud, the slot
`setBitRate` with the entry `1200` changes the stored baud rate to 1200 while the port stays
open at the 9600 baud applied to it. -/
theorem setBitRate_while_open_stores :
    (com3Window.startConnection OpenResult.opened).mPort.isOpen = true ∧
    (com3Window.startConnection OpenResult.opened).mBitRate = 9600 ∧
    ((com3Window.startConnection OpenResult.opened).setBitRate "1200").mBitRate = 1200 ∧
    ((com3Window.startConnection OpenResult.opened).setBitRate "1200").mPort.isOpen = true ∧
    ((com3Window.startConnection OpenResult.opened).setBitRate "1200").mPort.baudRate = 9600 := by
  decide

/-- C9, amended: the setter slots do not check whether the port is open; invoked while it is
open they store the new value as at any other time and never touch the channel, which stays
open with the settings applied at open time.  What the program does instead is gate the
widgets: every successful `startConnection`, from any state, disables the settings menu and
the port menu, and in every state reachable from construction in which the port is open both
menus are disabled.  Only the six setter slots change the stored configuration, so in every
session from construction in which no setter slot runs while the port is open, the stored
configuration equals the settings the channel holds whenever the port is open. -/
theorem setters_while_open (s : dcTerm) (t : String) (e : Event) (ui : Ui_dcTermClass)
    (ports : List String) (es : List Event) :
    ((s.startConnection OpenResult.opened).ui.menuSettings = false ∧
      (s.startConnection OpenResult.opened).ui.menuPort = false) ∧
    (((construct ui ports).run es).mPort.isOpen = true →
      ((construct ui ports).run es).ui.menuSettings = false ∧
      ((construct ui ports).run es).ui.menuPort = false) ∧
    (s.mPort.isOpen = true →
      (s.setBitRate t).mBitRate = QString.toInt t ∧
      (s.setDataBits t).mDataBits = QString.toInt t ∧
      (s.setStopBits t).mStopBits = QString.toInt t ∧
      (s.selectPort t).mPortName = t ∧
      (∀ x ∈ parityEntries, (s.setParity x.1).mParity = x.2) ∧
      (∀ x ∈ flowControlEntries, (s.setFlowControl x.1).mControl = x.2) ∧
      (s.setBitRate t).mPort = s.mPort ∧ (s.setDataBits t).mPort = s.mPort ∧
      (s.setParity t).mPort = s.mPort ∧ (s.setStopBits t).mPort = s.mPort ∧
      (s.setFlowControl t).mPort = s.mPort ∧ (s.selectPort t).mPort = s.mPort ∧
      (s.setBitRate t).mPort.isOpen = true) ∧
    (e.isSetter = false → (s.step e).configuration = s.configuration) ∧
    ((construct ui ports).settersGated es = true →
      ((construct ui ports).run es).mPort.isOpen = true →
      ((construct ui ports).run es).mPort.configuration
        = ((construct ui ports).run es).configuration) := by
  refine ⟨⟨rfl, rfl⟩, ?_, ?_, step_configuration s e, ?_⟩
  · intro ho
    have hg := (Gated_run (construct ui ports) es (Gated_construct ui ports)).2 ho
    exact ⟨hg.1, hg.2.1⟩
  · intro h
    refine ⟨rfl, rfl, rfl, rfl, ?_, ?_, rfl, rfl, ?_, rfl, ?_, rfl, h⟩
    · intro x hx
      simp only [parityEntries, List.mem_cons, List.mem_singleton, List.not_mem_nil,
        or_false] at hx
      rcases hx with rfl | rfl | rfl <;> rfl
    · intro x hx
      simp only [flowControlEntries, List.mem_cons, List.mem_singleton, List.not_mem_nil,
        or_false] at hx
      rcases hx with rfl | rfl | rfl <;> rfl
    · exact step_setter_mPort s (Event.setParity t) rfl
    · exact step_setter_mPort s (Event.setFlowControl t) rfl
  · intro hg
    have hsync : (construct ui ports).Synced := by
      intro ho
      rw [(construct_closed ui ports).1] at ho
      exact absurd ho (by decide)
    exact Synced_run (construct ui ports) es hsync hg

/-- C9, amended, instance: on the machine with port `COM3`, the session that selects `COM3`,
sets 9600 baud, connects successfully and sends one byte runs no setter while the port is
open; it ends with the port open, both menus disabled and the channel holding the stored
settings.  On that connected window the entry `1200` is stored by `setBitRate` and the channel
is left alone. -/
theorem setters_while_open_witness :
    ((construct sampleUi ["COM3"]).run [Event.selectPort "COM3", Event.setBitRate "9600",
      Event.startConnection OpenResult.opened, Event.writeToPort [0x41]]).ui.menuSettings
        = false ∧
    ((construct sampleUi ["COM3"]).run [Event.selectPort "COM3", Event.setBitRate "9600",
      Event.startConnection OpenResult.opened, Event.writeToPort [0x41]]).mPort.configuration
      = ((construct sampleUi ["COM3"]).run [Event.selectPort "COM3", Event.setBitRate "9600",
          Event.startConnection OpenResult.opened, Event.writeToPort [0x41]]).configuration ∧
    ((com3Window.startConnection OpenResult.opened).setBitRate "1200").mBitRate
      = QString.toInt "1200" ∧
    ((com3Window.startConnection OpenResult.opened).setBitRate "1200").mPort
      = (com3Window.startConnection OpenResult.opened).mPort :=
  have h := setters_while_open (com3Window.startConnection OpenResult.opened) "1200"
    Event.stopConnection sampleUi ["COM3"] [Event.selectPort "COM3", Event.setBitRate "9600",
      Event.startConnection OpenResult.opened, Event.writeToPort [0x41]]
  ⟨(h.2.1 (by decide)).1, h.2.2.2.2 (by decide) (by decide),
   (h.2.2.1 (by decide)).1, (h.2.2.1 (by decide)).2.2.2.2.2.2.1⟩

/-! ## Validation in the setters (C10) -/

/-- C11: for every key event and every local 8-bit codec, `Console::keyPressEvent` emits
`emitKeyPressed` exactly once, with the encoded text of the event, when the key is none of
Left, Right, Up, Down and Backspace, and then the window writes exactly that byte array to
the port; for those five keys it emits nothing and the window is left as it was.  So exactly
one signal is emitted if and only if the key is none of the five. -/
theorem keyPressEvent_emits (toLocal8Bit : String → QByteArray) (e : QKeyEvent) (s : dcTerm) :
    (e.key ∉ [Qt.Key_Left, Qt.Key_Right, Qt.Key_Up, Qt.Key_Down, Qt.Key_Backspace] →
      Console.keyPressEvent toLocal8Bit e = [toLocal8Bit e.text] ∧
      s.consoleKeyPress toLocal8Bit e = s.writeToPort (toLocal8Bit e.text)) ∧
    (e.key ∈ [Qt.Key_Left, Qt.Key_Right, Qt.Key_Up, Qt.Key_Down, Qt.Key_Backspace] →
      Console.keyPressEvent toLocal8Bit e = [] ∧ s.consoleKeyPress toLocal8Bit e = s) ∧
    ((Console.keyPressEvent toLocal8Bit e).length = 1 ↔
      e.key ∉ [Qt.Key_Left, Qt.Key_Right, Qt.Key_Up, Qt.Key_Down, Qt.Key_Backspace]) := by
  have hout : e.key ∉ [Qt.Key_Left, Qt.Key_Right, Qt.Key_Up, Qt.Key_Down, Qt.Key_Backspace] →
      Console.keyPressEvent toLocal8Bit e = [toLocal8Bit e.text] := by
    intro h
    simp only [List.mem_cons, List.mem_singleton, List.not_mem_nil, or_false, not_or] at h
    simp [Console.keyPressEvent, h.1, h.2.1, h.2.2.1, h.2.2.2.1, h.2.2.2.2]
  have hin : e.key ∈ [Qt.Key_Left, Qt.Key_Right, Qt.Key_Up, Qt.Key_Down, Qt.Key_Backspace] →
      Console.keyPressEvent toLocal8Bit e = [] := by
    intro h
    simp only [List.mem_cons, List.mem_singleton, List.not_mem_nil, or_false] at h
    unfold Console.keyPressEvent
    split_ifs <;> first | rfl | (exfalso; tauto)
  refine ⟨fun h => ⟨hout h, ?_⟩, fun h => ⟨hin h, ?_⟩, ?_⟩
  · rw [consoleKeyPress, hout h]; rfl
  · rw [consoleKeyPress, hin h]; rfl
  · constructor
    · intro hl hmem
      rw [hin hmem] at hl
      exact absurd hl (by decide)
    · intro h
      rw [hout h]; rfl

/-- C11, instances with the sample codec: the key A with text `A` is emitted once as the byte
`0x41` and written to the connected port, while the Left arrow emits nothing and leaves the
same window untouched. -/
theorem keyPressEvent_emits_witness :
    (Console.keyPressEvent sampleLocal8Bit { key := Qt.Key_A, text := "A" } = [[0x41]] ∧
      ((com3Window.startConnection OpenResult.opened).consoleKeyPress sampleLocal8Bit
          { key := Qt.Key_A, text := "A" }).mPort.written = [0x41]) ∧
    (Console.keyPressEvent sampleLocal8Bit { key := Qt.Key_Left, text := "" } = [] ∧
      (com3Window.startConnection OpenResult.opened).consoleKeyPress sampleLocal8Bit
          { key := Qt.Key_Left, text := "" } = com3Window.startConnection OpenResult.opened) :=
  ⟨⟨((keyPressEvent_emits sampleLocal8Bit { key := Qt.Key_A, text := "A" }
        (com3Window.startConnection OpenResult.opened)).1 (by decide)).1.trans (by decide),
    (congrArg (fun w => w.mPort.written)
      ((keyPressEvent_emits sampleLocal8Bit { key := Qt.Key_A, text := "A" }
        (com3Window.startConnection OpenResult.opened)).1 (by decide)).2).trans (by decide)⟩,
   (keyPressEvent_emits sampleLocal8Bit { key := Qt.Key_Left, text := "" }
      (com3Window.startConnection OpenResult.opened)).2.1 (by decide)⟩

/-! ## The port menu (C12) -/

/-- C12: when the enumerator reports no ports, construction disables the port menu and adds no
entry, and the menu stays disabled, still without a new entry, in every state reached through
a sequence of events that can occur on such a machine: setting changes, connection attempts
(which open the empty port name and so do not succeed), disconnects, writes and reads, in any
order.  The menu also stays disabled across any sequence, `selectPort` included, in which no
open attempt succeeds.  When the enumerator reports a non-empty list, construction appends
exactly one entry per reported port, in the reported order and carrying the name of the port,
leaves the enabled flag of the menu as the form set it, and triggering the entry of a port
stores the name of that port; no later event adds or removes an entry. -/
theorem portMenu_population (ui : Ui_dcTermClass) (ports : List String) (es : List Event) :
    (construct ui []).ui.menuPort = false ∧
    (construct ui []).ui.menuPortActions = ui.menuPortActions ∧
    (feasible [] (construct ui []) es = true →
      ((construct ui []).run es).ui.menuPort = false ∧
      ((construct ui []).run es).ui.menuPortActions = ui.menuPortActions) ∧
    ((∀ e ∈ es, e ≠ Event.startConnection OpenResult.opened) →
      ((construct ui []).run es).ui.menuPort = false) ∧
    (ports ≠ [] →
      (construct ui ports).ui.menuPortActions = ui.menuPortActions ++ ports ∧
      (construct ui ports).ui.menuPort = ui.menuPort ∧
      (∀ name ∈ ports, ((construct ui ports).selectPort name).mPortName = name)) ∧
    ((construct ui ports).run es).ui.menuPortActions = ui.menuPortActions ++ ports := by
  have hact : (construct ui ports).ui.menuPortActions = ui.menuPortActions ++ ports := by
    rw [construct_ui]
    split
    · rename_i h
      rw [List.length_eq_zero.mp h]
      simp
    · rfl
  have hnil : (construct ui []).ui = { ui with menuPort := false } := by
    rw [construct_ui]; rfl
  have hname : (construct ui []).mPortName = "" := construct_mPortName ui []
  refine ⟨?_, ?_, ?_, ?_, ?_, ?_⟩
  · rw [hnil]
  · rw [hnil]
  · intro hf
    constructor
    · rw [run_portless (construct ui []) es hname (construct_closed ui []).1 hf, hnil]
    · rw [run_menuPortActions, hnil]
  · intro hes
    rw [(run_closed_menuPort (construct ui []) es (construct_closed ui []).1 hes).2, hnil]
  · intro hne
    refine ⟨hact, ?_, fun name _ => rfl⟩
    rw [construct_ui, if_neg (by simpa using hne)]
  · rw [run_menuPortActions, hact]

/-- C12, instances: without ports the menu is still disabled, and still has no entry, after a
failed connection attempt, a disconnect, a change of the baud rate and a key press; with the
ports `COM1` and `COM3` reported to an empty menu the entries are `COM1`, `COM3` in this
order, the menu is enabled as the form set it, and the entry `COM3` stores that name. -/
theorem portMenu_population_witness :
    (((construct sampleUi []).run [Event.startConnection (OpenResult.failed "access denied"),
        Event.stopConnection, Event.setBitRate "9600", Event.writeToPort [0x41]]).ui.menuPort
        = false ∧
      ((construct sampleUi []).run [Event.startConnection (OpenResult.failed "access denied"),
        Event.stopConnection, Event.setBitRate "9600",
        Event.writeToPort [0x41]]).ui.menuPortActions = []) ∧
    ((construct sampleUi ["COM1", "COM3"]).ui.menuPortActions = [] ++ ["COM1", "COM3"] ∧
      (construct sampleUi ["COM1", "COM3"]).ui.menuPort = true ∧
      ∀ name ∈ ["COM1", "COM3"],
        ((construct sampleUi ["COM1", "COM3"]).selectPort name).mPortName = name) :=
  ⟨(portMenu_population sampleUi []
      [Event.startConnection (OpenResult.failed "access denied"), Event.stopConnection,
        Event.setBitRate "9600", Event.writeToPort [0x41]]).2.2.1 (by decide),
   (portMenu_population sampleUi ["COM1", "COM3"] []).2.2.2.2.1 (by decide)⟩

/-! ## Widget gating (C13) -/

/-- C13: in every state reached from construction (any form, any list of ports) through any
sequence of slot invocations, with every open attempt succeeding or failing arbitrarily, the
console is enabled if and only if the port is open, and whenever the port is open the
settings menu, the port menu and the connect action are disabled and the disconnect action
is enabled. -/
theorem gating_invariant (ui : Ui_dcTermClass) (ports : List String) (es : List Event) :
    (((construct ui ports).run es).console.enabled = true ↔
      ((construct ui ports).run es).mPort.isOpen = true) ∧
    (((construct ui ports).run es).mPort.isOpen = true →
      ((construct ui ports).run es).ui.menuSettings = false ∧
      ((construct ui ports).run es).ui.menuPort = false ∧
      ((construct ui ports).run es).ui.actionConnect = false ∧
      ((construct ui ports).run es).ui.actionDisconnect = true) :=
  Gated_run (construct ui ports) es (Gated_construct ui ports)

/-- C13, instance: on the fresh window, after choosing `COM3`, a failed and then a successful
open attempt, a change of the baud rate and a further failed attempt, the port is open, the
console enabled, both menus and the connect action disabled and the disconnect action
enabled. -/
theorem gating_invariant_witness :
    ((construct sampleUi ["COM3"]).run [Event.selectPort "COM3",
      Event.startConnection (OpenResult.failed "access denied"),
      Event.startConnection OpenResult.opened, Event.setBitRate "1200",
      Event.startConnection (OpenResult.failed "busy")]).console.enabled = true ∧
    ((construct sampleUi ["COM3"]).run [Event.selectPort "COM3",
      Event.startConnection (OpenResult.failed "access denied"),
      Event.startConnection OpenResult.opened, Event.setBitRate "1200",
      Event.startConnection (OpenResult.failed "busy")]).ui.menuSettings = false ∧
    ((construct sampleUi ["COM3"]).run [Event.selectPort "COM3",
      Event.startConnection (OpenResult.failed "access denied"),
      Event.startConnection OpenResult.opened, Event.setBitRate "1200",
      Event.startConnection (OpenResult.failed "busy")]).ui.actionDisconnect = true :=
  have h := gating_invariant sampleUi ["COM3"] [Event.selectPort "COM3",
      Event.startConnection (OpenResult.failed "access denied"),
      Event.startConnection OpenResult.opened, Event.setBitRate "1200",
      Event.startConnection (OpenResult.failed "busy")]
  ⟨h.1.mpr (by decide), (h.2 (by decide)).1, (h.2 (by decide)).2.2.2⟩

end dcTerm
